import Mathlib

/-!
Shallow embedding of the quiz-bot scripts (`src/index.js` and the unnamed
variant `src/unnamed/part_000`).

The two scripts drive a browser against a quiz site: they log in, wait for
questions, scrape the question text and the option texts, ask an inference
backend (Ollama or ChatGPT) for a 1-based answer ordinal, click that option
and a submit control, and loop.  The browser, the page DOM and the network
are modelled as explicit environment values; each source function becomes a
pure Lean function from its environment to the trace of UI actions it
performs together with its control-flow outcome.

JavaScript values that matter to the control flow are modelled exactly:
`parseInt` returns `NaN` (not `null`) on unparseable text, `0` and `NaN`
and `null` are all falsy, and errors are values carrying a message that the
loop inspects for the substring "timeout".
-/

/-- A JavaScript error value, as far as the scripts inspect it.
`timeoutErr` is a timeout raised by a bounded element wait
(`page.waitForSelector` / the retry helper); its message reports the
selector and the timeout and, per the scripts' own handling (both variants
branch on `error.message.includes('timeout')` to recognise exactly these
waits), it contains the substring "timeout".  `jsError` is an ordinary
`Error(msg)` with the given message. -/
inductive JsError where
  | timeoutErr (selector : String) (ms : Nat)
  | jsError (msg : String)
deriving Repr, DecidableEq

/-- Whether a list of characters contains "timeout" as a contiguous sublist. -/
def hasTimeoutSub : List Char → Bool
  | [] => false
  | c :: rest => ("timeout".toList.isPrefixOf (c :: rest)) || hasTimeoutSub rest

/-- `error.message.includes('timeout')`, the test both loop catch blocks use. -/
def includesTimeout : JsError → Bool
  | .timeoutErr _ _ => true
  | .jsError m => hasTimeoutSub m.toList

/-- The value a quiz-answer function can produce: a JavaScript number
(`num`), the `NaN` that `parseInt` yields on unparseable text, or the
`null` returned from the catch blocks of the inference clients. -/
inductive AnswerValue where
  | jnull
  | nan
  | num (n : Int)
deriving Repr, DecidableEq

/-- JavaScript truthiness of an `AnswerValue`: `null`, `NaN` and `0` are
falsy, every other number is truthy.  This is the `if (answerIndex)` test. -/
def jsTruthy : AnswerValue → Bool
  | .num n => decide (n ≠ 0)
  | _ => false

/-- Decimal value of a digit character. -/
def digitVal (c : Char) : Nat := c.toNat - 48

/-- Value of a list of decimal digit characters, most significant first. -/
def natOfDigits (ds : List Char) : Nat :=
  ds.foldl (fun a c => a * 10 + digitVal c) 0

/-- ASCII hexadecimal digit test (for `parseInt`'s `0x` handling). -/
def isHexDigit (c : Char) : Bool :=
  c.isDigit || ('a' ≤ c && c ≤ 'f') || ('A' ≤ c && c ≤ 'F')

/-- Value of a hexadecimal digit character. -/
def hexVal (c : Char) : Nat :=
  if c.isDigit then c.toNat - 48
  else if 'a' ≤ c ∧ c ≤ 'f' then c.toNat - 87
  else c.toNat - 55

/-- Value of a list of hexadecimal digit characters, most significant first. -/
def natOfHexDigits (ds : List Char) : Nat :=
  ds.foldl (fun a c => a * 16 + hexVal c) 0

/-- Whether the remaining text starts with the `0x`/`0X` hexadecimal
marker of `parseInt`. -/
def hexPref : List Char → Bool
  | c0 :: c1 :: _ => c0 == '0' && (c1 == 'x' || c1 == 'X')
  | _ => false

/-- `parseInt` after the optional sign has been consumed: a `0x`/`0X`
prefix switches to hexadecimal, otherwise the longest leading run of
decimal digits is taken; an empty digit run gives `NaN`. -/
def parseIntFrom (neg : Bool) (cs : List Char) : AnswerValue :=
  let sgn : Int := if neg then -1 else 1
  if hexPref cs then
    let ds := (cs.drop 2).takeWhile isHexDigit
    if ds.isEmpty then .nan else .num (sgn * (natOfHexDigits ds : Int))
  else
    let ds := cs.takeWhile Char.isDigit
    if ds.isEmpty then .nan else .num (sgn * (natOfDigits ds : Int))

/-- The optional single sign consumed by `parseInt` after whitespace. -/
def signSplit : List Char → AnswerValue
  | [] => .nan
  | c :: rest =>
    if c = '-' then parseIntFrom true rest
    else if c = '+' then parseIntFrom false rest
    else parseIntFrom false (c :: rest)

/-- JavaScript `parseInt` on a character list: skip leading whitespace,
consume at most one sign, then parse per `parseIntFrom`.  Parse failure
is `NaN`, never `null`. -/
def parseIntList (cs0 : List Char) : AnswerValue :=
  signSplit (cs0.dropWhile Char.isWhitespace)

/-- JavaScript `parseInt(s)` with no radix argument. -/
def parseIntJS (s : String) : AnswerValue :=
  parseIntList s.data

/-- JavaScript `String.prototype.trim()`: strip leading and trailing
whitespace. -/
def trimJS (s : String) : String :=
  String.mk (((s.data.dropWhile Char.isWhitespace).reverse.dropWhile Char.isWhitespace).reverse)

/-- Outcome of the HTTP round trip inside an inference client: `ok text`
means the request and the JSON field accesses succeeded and produced the
reply `text`; `err` means any step threw (network failure, malformed JSON,
or — for ChatGPT — a reported `data.error`). -/
inductive FetchOutcome where
  | ok (text : String)
  | err
deriving Repr, DecidableEq

/-- `getOllamaAnswer` (both variants): on a successful round trip it
returns `parseInt(data.response.trim())`; any thrown error is caught and
converted to `null`. -/
def getOllamaAnswer : FetchOutcome → AnswerValue
  | .ok s => parseIntJS (trimJS s)
  | .err => .jnull

/-- `getChatGPTAnswer` (`part_000`): on a successful round trip it returns
`parseInt(data.choices[0].message.content.trim())`; a reported error or
any thrown error is caught and converted to `null`. -/
def getChatGPTAnswer : FetchOutcome → AnswerValue
  | .ok s => parseIntJS (trimJS s)
  | .err => .jnull

/-- Backend selector (`AI_MODEL` in `part_000`). -/
inductive AiModel where
  | ollama
  | chatgpt
deriving Repr, DecidableEq

/-- `getAIAnswer` (`part_000`): dispatch to the configured backend.  The
surrounding try/catch cannot fire since both backends already catch. -/
def getAIAnswer (m : AiModel) (f : FetchOutcome) : AnswerValue :=
  match m with
  | .ollama => getOllamaAnswer f
  | .chatgpt => getChatGPTAnswer f

/-! ## The retry helper `waitForElementWithRetry` (`part_000`, lines 238-263) -/

/-- `maxAttempts` constant of `waitForElementWithRetry`. -/
def maxAttempts : Nat := 3

/-- `baseTimeout` constant of `waitForElementWithRetry` (milliseconds). -/
def baseTimeout : Nat := 50000

/-- Timeout passed to `page.waitForSelector` on a given attempt:
`baseTimeout * attempt`. -/
def attemptTimeout (attempt : Nat) : Nat := baseTimeout * attempt

/-- Result of the retry helper: the element was found on some attempt, or
an error was thrown. -/
inductive RetryResult where
  | found (attempt : Nat)
  | errored (e : JsError)
deriving Repr, DecidableEq

/-- Observable trace of one run of the retry helper: the per-attempt
timeouts it used in order, the number of 1-second pauses it slept between
attempts, and its result. -/
structure RetryTrace where
  timeouts : List Nat
  pauses : Nat
  result : RetryResult
deriving Repr, DecidableEq

/-- The `for` loop of `waitForElementWithRetry`, one source iteration per
fuel step, starting at `attempt`.  `avail j` says whether the wait of
attempt `j` resolves (the element becomes visible within that attempt's
timeout); an unresolved wait throws the attempt's timeout error.  On the
last attempt (`attempt == maxAttempts`) the caught error is rethrown
as-is; on earlier attempts the helper sleeps 1 second and retries.  Fuel
exhaustion is the fall-through `throw new Error(...)` after the loop. -/
def retryGo (sel : String) (avail : Nat → Bool) : Nat → Nat → RetryTrace
  | _, 0 =>
    ⟨[], 0, .errored (.jsError
      ("Failed to find element \"" ++ sel ++ "\" after " ++ toString maxAttempts ++ " attempts"))⟩
  | attempt, fuel+1 =>
    if avail attempt then
      ⟨[attemptTimeout attempt], 0, .found attempt⟩
    else if attempt == maxAttempts then
      ⟨[attemptTimeout attempt], 0, .errored (.timeoutErr sel (attemptTimeout attempt))⟩
    else
      let t := retryGo sel avail (attempt + 1) fuel
      ⟨attemptTimeout attempt :: t.timeouts, t.pauses + 1, t.result⟩

/-- `waitForElementWithRetry(page, selector)` over the availability
environment `avail`: attempts start at 1. -/
def waitForElementWithRetry (sel : String) (avail : Nat → Bool) : RetryTrace :=
  retryGo sel avail 1 maxAttempts

/-! ## The question/answer loop, one iteration per call

The DOM, the clickability of each selector and the inference backend's
reply are environment inputs; an iteration returns the list of UI actions
it performed, in order, and the control-flow outcome of the `while (true)`
body (complete the iteration and continue; reload the page and continue;
or `break` out of the loop). -/

/-- A UI action performed by one loop iteration, in program order.
`clickOption k` is the click on the option selector built from the
1-based ordinal `k` (`nth-child(k)`); `invokeInference` is the call into
the inference client with the scraped question and option texts. -/
inductive UiAction where
  | invokeInference (question : String) (options : List String)
  | clickOption (k : Int)
  | clickSubmit
  | screenshot (path : String)
  | reloadPage
deriving Repr, DecidableEq

/-- Control-flow outcome of one iteration of the `while (true)` body. -/
inductive LoopOutcome where
  | continueNext
  | reloadRetry
  | exitComplete
  | exitError
deriving Repr, DecidableEq

/-- A bounded wait through `waitForElementWithRetry` for an element whose
availability does not change across the attempts: `none` when the element
is there, otherwise the error the helper throws. -/
def waitConst (sel : String) (ok : Bool) : Option JsError :=
  match (waitForElementWithRetry sel (fun _ => ok)).result with
  | .found _ => none
  | .errored e => some e

/-- Selector `div.questionPane` (`part_000`). -/
def qPaneSel : String := "div.questionPane"

/-- Selector `div.questionPane div.questionText` (`part_000`). -/
def qTextSel : String := "div.questionPane div.questionText"

/-- Selector `div.answerPane` (`part_000`). -/
def aPaneSel : String := "div.answerPane"

/-- Option selector built from the answer ordinal (`part_000`, line 370). -/
def optionSel000 (k : Int) : String :=
  "div.answerPane div.answer:nth-child(" ++ toString k ++ ")"

/-- Submit-button selector (`part_000`, line 379). -/
def submitSel000 : String := "div.button.bg-yellow div.buttonText:has-text(\"Submit\")"

/-- Selector `.question` (`index.js`). -/
def questionSelIdx : String := ".question"

/-- Option selector built from the answer ordinal (`index.js`, line 156). -/
def optionSelIdx (k : Int) : String := ".option:nth-child(" ++ toString k ++ ")"

/-- Submit-button selector (`index.js`, line 165). -/
def submitSelIdx : String := "#submit-button"

/-- DOM/page environment for one iteration of the `part_000` loop.
`questionPaneOk`, `questionTextOk`, `answerPaneOk` say whether the three
retried waits resolve; `options` is what `$$eval` scrapes from
`div.answerPane div.answerText`; `optionRes k` is `none` when waiting for
and clicking the ordinal-`k` option selector succeeds and `some e` when
that phase throws `e` (for an ordinal with no matching element, the
retried wait exhausts and throws its timeout error); `submitRes` likewise
for the submit control. -/
structure Dom000 where
  questionPaneOk : Bool
  questionTextOk : Bool
  answerPaneOk : Bool
  questionStr : String
  options : List String
  optionRes : Int → Option JsError
  submitRes : Option JsError

/-- The `try` body of one `part_000` loop iteration (lines 317-398): waits,
extraction, the zero-options check, the inference call, and — when the
reply is truthy (`if (answerIndex)`) — the inner submitting phase whose
`catch` takes `error-screenshot.png` and rethrows.  Returns the actions
performed and the error escaping the body, if any. -/
def tryBody000 (dom : Dom000) (m : AiModel) (f : FetchOutcome) :
    List UiAction × Option JsError :=
  match waitConst qPaneSel dom.questionPaneOk with
  | some e => ([], some e)
  | none =>
    match waitConst qTextSel dom.questionTextOk with
    | some e => ([], some e)
    | none =>
      let acts := [UiAction.screenshot "debug-question.png"]
      match waitConst aPaneSel dom.answerPaneOk with
      | some e => (acts, some e)
      | none =>
        if dom.options.isEmpty then
          (acts, some (.jsError "No answer options found"))
        else
          let acts := acts ++ [UiAction.invokeInference dom.questionStr dom.options]
          match getAIAnswer m f with
          | .num k =>
            if jsTruthy (.num k) then
              match dom.optionRes k with
              | some e => (acts ++ [.screenshot "error-screenshot.png"], some e)
              | none =>
                match dom.submitRes with
                | some e =>
                  (acts ++ [.clickOption k, .screenshot "error-screenshot.png"], some e)
                | none =>
                  (acts ++ [.clickOption k, .clickSubmit,
                    .screenshot "success-submission.png"], none)
            else (acts, none)
          | _ => (acts, none)

/-- One full iteration of the `part_000` loop including its `catch`
(lines 399-426): an error whose message includes "timeout" takes
`timeout-error.png`, reloads the page, sleeps and continues; any other
error takes `quiz-error.png` and breaks out of the loop. -/
def iter000 (dom : Dom000) (m : AiModel) (f : FetchOutcome) :
    List UiAction × LoopOutcome :=
  match tryBody000 dom m f with
  | (acts, none) => (acts, .continueNext)
  | (acts, some e) =>
    if includesTimeout e then
      (acts ++ [.screenshot "timeout-error.png", .reloadPage], .reloadRetry)
    else
      (acts ++ [.screenshot "quiz-error.png"], .exitError)

/-- DOM/page environment for one iteration of the `index.js` loop.
`questionOk` says whether the 5-second wait for `.question` resolves;
there is no separate answer-pane wait and no zero-options check. -/
structure DomIdx where
  questionOk : Bool
  questionStr : String
  options : List String
  optionRes : Int → Option JsError
  submitRes : Option JsError

/-- The `try` body of one `index.js` loop iteration (lines 127-183): wait
for `.question`, scrape, invoke Ollama unconditionally (no empty-options
check), and on a truthy reply run the submitting phase whose `catch`
takes `error-screenshot.png` and rethrows. -/
def tryBodyIdx (dom : DomIdx) (f : FetchOutcome) : List UiAction × Option JsError :=
  if dom.questionOk then
    let acts := [UiAction.invokeInference dom.questionStr dom.options]
    match getOllamaAnswer f with
    | .num k =>
      if jsTruthy (.num k) then
        match dom.optionRes k with
        | some e => (acts ++ [.screenshot "error-screenshot.png"], some e)
        | none =>
          match dom.submitRes with
          | some e => (acts ++ [.clickOption k, .screenshot "error-screenshot.png"], some e)
          | none => (acts ++ [.clickOption k, .clickSubmit], none)
      else (acts, none)
    | _ => (acts, none)
  else ([], some (.timeoutErr questionSelIdx 5000))

/-- One full iteration of the `index.js` loop including its `catch`
(lines 184-191): an error whose message includes "timeout" is read as
"no more questions, quiz might be complete" and breaks; any other error
also breaks, as an error exit. -/
def iterIdx (dom : DomIdx) (f : FetchOutcome) : List UiAction × LoopOutcome :=
  match tryBodyIdx dom f with
  | (acts, none) => (acts, .continueNext)
  | (acts, some e) =>
    if includesTimeout e then (acts, .exitComplete)
    else (acts, .exitError)

/-! ## The login sequencer `handleQuizLogin` (both variants, identical) -/

/-- Which of the four login elements appear within their 5-second waits. -/
structure LoginEnv where
  enterBtn1 : Bool
  emailInput : Bool
  pinInput : Bool
  enterBtn2 : Bool

/-- A UI step performed by the login sequencer, in program order. -/
inductive LoginAction where
  | clickEnter
  | fillEmail (email : String)
  | fillPin (pin : String)
  | settle (ms : Nat)
deriving Repr, DecidableEq

/-- Selector of the Enter control waited on in login steps 1 and 4. -/
def loginEnterSel : String := "div.button.bg-blue div.buttonText"

/-- Selector of the email input. -/
def emailSel : String := "input[name=\"email\"]"

/-- Selector of the pin input. -/
def pinSel : String := "input[name=\"pin\"]"

/-- `handleQuizLogin(page)` (`part_000` lines 208-236, `index.js` lines
52-80): four strictly sequential steps — click Enter, fill email, fill
pin, click Enter — each behind a 5-second wait, then a fixed 2-second
settle sleep.  The `catch` logs and rethrows the error unmodified, so the
returned error is the failing step's own timeout error and no later step
runs. -/
def handleQuizLogin (env : LoginEnv) (email pin : String) :
    List LoginAction × Option JsError :=
  if ¬ env.enterBtn1 then
    ([], some (.timeoutErr loginEnterSel 5000))
  else if ¬ env.emailInput then
    ([.clickEnter], some (.timeoutErr emailSel 5000))
  else if ¬ env.pinInput then
    ([.clickEnter, .fillEmail email], some (.timeoutErr pinSel 5000))
  else if ¬ env.enterBtn2 then
    ([.clickEnter, .fillEmail email, .fillPin pin], some (.timeoutErr loginEnterSel 5000))
  else
    ([.clickEnter, .fillEmail email, .fillPin pin, .clickEnter, .settle 2000], none)

/-! ## Exit paths of `runQuizBot` (both variants, identical structure) -/

/-- The exit paths of a run: the loop `break`s and `runQuizBot` returns
(`normalLoopExit`); the user closes the window and the close handler's
`browser.close()` succeeds (`pageCloseOk`) or rejects (`pageCloseFail`);
or an error escapes to `runQuizBot`'s top-level catch (`fatalError`). -/
inductive ExitPath where
  | normalLoopExit
  | pageCloseOk
  | pageCloseFail
  | fatalError
deriving Repr, DecidableEq

/-- What a run does on an exit path: whether `browser.close()` completed,
and the argument of the `process.exit` call, `none` when no exit call is
made on that path. -/
structure ExitBehavior where
  browserClosed : Bool
  exitCode : Option Nat
deriving Repr, DecidableEq

/-- Exit behavior of `runQuizBot` (`part_000` lines 288-299 and 428-437,
`index.js` lines 98-109 and 193-202, identical): the page-close handler
closes the browser and exits 0, or exits 1 if closing rejects; the
top-level catch closes the browser best-effort and exits 1; after a loop
`break` the function simply returns — no `browser.close()` and no
`process.exit` appear after the loop. -/
def runExitBehavior : ExitPath → ExitBehavior
  | .normalLoopExit => ⟨false, none⟩
  | .pageCloseOk => ⟨true, some 0⟩
  | .pageCloseFail => ⟨false, some 1⟩
  | .fatalError => ⟨true, some 1⟩

example : (waitForElementWithRetry "q" (fun a => a == 2)).result = .found 2 := by decide

example : (waitForElementWithRetry "q" (fun _ => false)).result
    = .errored (.timeoutErr "q" 150000) := by decide

example : parseIntJS "2" = .num 2 := by decide
example : parseIntJS "2. Paris is correct" = .num 2 := by decide
example : parseIntJS "I think Paris" = .nan := by decide
example : parseIntJS "" = .nan := by decide
example : parseIntJS "0x1A" = .num 26 := by decide
example : parseIntJS "-3" = .num (-3) := by decide
example : getOllamaAnswer (.ok " 2 ") = .num 2 := by decide

/-! ## Concrete environments used by witnesses and counterexamples -/

/-- The example question of the spec. -/
def capitalQ : String := "What is the capital of France?"

/-- The example options of the spec. -/
def capitalOptions : List String := ["London", "Paris", "Berlin", "Madrid"]

/-- A healthy `part_000` page showing the example question: all waits
resolve, and exactly the option selectors with a matching element
(ordinals 1..4) are clickable; any other ordinal's selector resolves to
nothing, so its retried wait exhausts and throws its timeout error. -/
def capitalDom : Dom000 where
  questionPaneOk := true
  questionTextOk := true
  answerPaneOk := true
  questionStr := capitalQ
  options := capitalOptions
  optionRes := fun k =>
    if 1 ≤ k ∧ k ≤ 4 then none
    else some (.timeoutErr (optionSel000 k) (attemptTimeout maxAttempts))
  submitRes := none

/-- A healthy `index.js` page showing the example question. -/
def capitalDomIdx : DomIdx where
  questionOk := true
  questionStr := capitalQ
  options := capitalOptions
  optionRes := fun k =>
    if 1 ≤ k ∧ k ≤ 4 then none else some (.timeoutErr (optionSelIdx k) 5000)
  submitRes := none

/-- A `part_000` page whose scrape finds zero option texts. -/
def emptyDom000 : Dom000 where
  questionPaneOk := true
  questionTextOk := true
  answerPaneOk := true
  questionStr := "Q"
  options := []
  optionRes := fun _ => none
  submitRes := none

/-- An `index.js` page whose scrape finds zero option texts. -/
def emptyDomIdx : DomIdx where
  questionOk := true
  questionStr := "Q"
  options := []
  optionRes := fun _ => none
  submitRes := none

/-! ## Evaluation lemmas -/

/-- A retried wait for an element that is there resolves at once. -/
theorem waitConst_true (sel : String) : waitConst sel true = none := rfl

/-- A retried wait for an element that never appears exhausts its three
attempts and throws the third attempt's timeout error. -/
theorem waitConst_false (sel : String) :
    waitConst sel false = some (.timeoutErr sel (attemptTimeout maxAttempts)) := rfl

example : iter000 capitalDom .ollama (.ok "2") =
    ([.screenshot "debug-question.png", .invokeInference capitalQ capitalOptions,
      .clickOption 2, .clickSubmit, .screenshot "success-submission.png"],
     .continueNext) := by decide

example : iterIdx capitalDomIdx (.ok "2") =
    ([.invokeInference capitalQ capitalOptions, .clickOption 2, .clickSubmit],
     .continueNext) := by decide

example : (iter000 capitalDom .ollama (.ok "9")).2 = .reloadRetry := by decide
example : (iterIdx capitalDomIdx (.ok "9")).2 = .exitComplete := by decide
example : (iter000 capitalDom .ollama (.ok "0")).2 = .continueNext := by decide
example : (iter000 emptyDom000 .ollama (.ok "2")).2 = .exitError := by decide
example : (iterIdx emptyDomIdx (.ok "2")).1 =
    [.invokeInference "Q" [], .clickOption 2, .clickSubmit] := by decide

/-! ## Claims -/

/-- C1: For every well-formed question with N options (N ≥ 1) and a model
reply whose trimmed text parses to an integer k in [1, N], one iteration
of the question/answer loop — in either script variant — clicks the
option element at 1-based ordinal position k and then clicks the submit
control, and the iteration completes normally. -/
theorem C1_clicks_ordinal_then_submits
    (dom : Dom000) (domI : DomIdx) (m : AiModel) (s : String) (k : Int) (N : Nat)
    (hlen : dom.options.length = N) (hN : 1 ≤ N)
    (hparse : parseIntJS (trimJS s) = .num k) (hk1 : 1 ≤ k) (hkN : k ≤ (N : Int))
    (hq : dom.questionPaneOk = true) (ht : dom.questionTextOk = true)
    (ha : dom.answerPaneOk = true)
    (hopt : dom.optionRes k = none) (hsub : dom.submitRes = none)
    (hqI : domI.questionOk = true)
    (hoptI : domI.optionRes k = none) (hsubI : domI.submitRes = none) :
    iter000 dom m (.ok s) =
      ([.screenshot "debug-question.png",
        .invokeInference dom.questionStr dom.options,
        .clickOption k, .clickSubmit, .screenshot "success-submission.png"],
       .continueNext)
    ∧ iterIdx domI (.ok s) =
      ([.invokeInference domI.questionStr domI.options, .clickOption k, .clickSubmit],
       .continueNext) := by
  have hne : dom.options ≠ [] := by
    intro h; rw [h] at hlen; simp at hlen; omega
  have hisEmpty : dom.options.isEmpty = false := by
    cases hL : dom.options with
    | nil => exact absurd hL hne
    | cons a l => rfl
  have hans : getAIAnswer m (.ok s) = .num k := by
    cases m <;> simp [getAIAnswer, getOllamaAnswer, getChatGPTAnswer, hparse]
  have hk0 : k ≠ 0 := by omega
  constructor
  · simp only [iter000, tryBody000, hq, ht, ha, waitConst_true, hisEmpty, hans,
      hopt, hsub, jsTruthy, Bool.false_eq_true, if_false]
    simp [hk0]
  · simp only [iterIdx, tryBodyIdx, hqI, getOllamaAnswer, hparse, hoptI, hsubI, jsTruthy]
    simp [hk0]

/-- Witness for C1 at the spec's example: the capital-of-France question
with options London/Paris/Berlin/Madrid and the reply "2" clicks the
option at ordinal 2 — which is "Paris" — and then the submit control. -/
theorem C1_witness :
    iter000 capitalDom .ollama (.ok "2") =
      ([.screenshot "debug-question.png", .invokeInference capitalQ capitalOptions,
        .clickOption 2, .clickSubmit, .screenshot "success-submission.png"],
       .continueNext)
    ∧ iterIdx capitalDomIdx (.ok "2") =
      ([.invokeInference capitalQ capitalOptions, .clickOption 2, .clickSubmit],
       .continueNext)
    ∧ capitalOptions[1]? = some "Paris" := by
  have h := C1_clicks_ordinal_then_submits capitalDom capitalDomIdx .ollama "2" 2 4
    (by decide) (by decide) (by decide) (by decide) (by decide)
    rfl rfl rfl (by decide) rfl rfl (by decide) rfl
  exact ⟨h.1, h.2, by decide⟩

/-- Definitional unfolding of one source iteration of the retry loop. -/
theorem retryGo_succ (sel : String) (avail : Nat → Bool) (attempt fuel : Nat) :
    retryGo sel avail attempt (fuel + 1) =
      if avail attempt then
        ⟨[attemptTimeout attempt], 0, .found attempt⟩
      else if attempt == maxAttempts then
        ⟨[attemptTimeout attempt], 0, .errored (.timeoutErr sel (attemptTimeout attempt))⟩
      else
        let t := retryGo sel avail (attempt + 1) fuel
        ⟨attemptTimeout attempt :: t.timeouts, t.pauses + 1, t.result⟩ := rfl

/-- The element is there on the first attempt: one attempt, no pause. -/
theorem waitRetry_found_1 (sel : String) (avail : Nat → Bool) (h1 : avail 1 = true) :
    waitForElementWithRetry sel avail = ⟨[attemptTimeout 1], 0, .found 1⟩ := by
  show retryGo sel avail 1 (2 + 1) = _
  rw [retryGo_succ, h1]
  rfl

/-- The element appears on the second attempt: two attempts, one pause. -/
theorem waitRetry_found_2 (sel : String) (avail : Nat → Bool)
    (h1 : avail 1 = false) (h2 : avail 2 = true) :
    waitForElementWithRetry sel avail =
      ⟨[attemptTimeout 1, attemptTimeout 2], 1, .found 2⟩ := by
  show retryGo sel avail 1 (2 + 1) = _
  rw [retryGo_succ, h1]
  show (let t := retryGo sel avail 2 (1 + 1);
    (⟨attemptTimeout 1 :: t.timeouts, t.pauses + 1, t.result⟩ : RetryTrace)) = _
  rw [retryGo_succ, h2]
  rfl

/-- The element appears on the third attempt: three attempts, two pauses. -/
theorem waitRetry_found_3 (sel : String) (avail : Nat → Bool)
    (h1 : avail 1 = false) (h2 : avail 2 = false) (h3 : avail 3 = true) :
    waitForElementWithRetry sel avail =
      ⟨[attemptTimeout 1, attemptTimeout 2, attemptTimeout 3], 2, .found 3⟩ := by
  show retryGo sel avail 1 (2 + 1) = _
  rw [retryGo_succ, h1]
  show (let t := retryGo sel avail 2 (1 + 1);
    (⟨attemptTimeout 1 :: t.timeouts, t.pauses + 1, t.result⟩ : RetryTrace)) = _
  rw [retryGo_succ, h2]
  show (let t := (let u := retryGo sel avail 3 (0 + 1);
      (⟨attemptTimeout 2 :: u.timeouts, u.pauses + 1, u.result⟩ : RetryTrace));
    (⟨attemptTimeout 1 :: t.timeouts, t.pauses + 1, t.result⟩ : RetryTrace)) = _
  rw [retryGo_succ, h3]
  rfl

/-- The element never appears: the helper exhausts its three attempts and
rethrows the third attempt's timeout error (the post-loop descriptive
`Failed to find element` error is not reached on this path). -/
theorem waitRetry_exhausted (sel : String) (avail : Nat → Bool)
    (h1 : avail 1 = false) (h2 : avail 2 = false) (h3 : avail 3 = false) :
    waitForElementWithRetry sel avail =
      ⟨[attemptTimeout 1, attemptTimeout 2, attemptTimeout 3], 2,
       .errored (.timeoutErr sel (attemptTimeout 3))⟩ := by
  show retryGo sel avail 1 (2 + 1) = _
  rw [retryGo_succ, h1]
  show (let t := retryGo sel avail 2 (1 + 1);
    (⟨attemptTimeout 1 :: t.timeouts, t.pauses + 1, t.result⟩ : RetryTrace)) = _
  rw [retryGo_succ, h2]
  show (let t := (let u := retryGo sel avail 3 (0 + 1);
      (⟨attemptTimeout 2 :: u.timeouts, u.pauses + 1, u.result⟩ : RetryTrace));
    (⟨attemptTimeout 1 :: t.timeouts, t.pauses + 1, t.result⟩ : RetryTrace)) = _
  rw [retryGo_succ, h3]
  rfl

/-- C4 counterexample: when the element is absent through all 3 attempts,
the failure `waitForElementWithRetry` raises is the third attempt's
timeout error, not the helper's own descriptive "Failed to find element"
error — that throw site is unreachable on this path. -/
theorem C4_cex_exhaustion_raises_timeout_not_descriptive :
    (waitForElementWithRetry "div.questionPane" (fun _ => false)).result
      = .errored (.timeoutErr "div.questionPane" 150000)
    ∧ (waitForElementWithRetry "div.questionPane" (fun _ => false)).result
      ≠ .errored (.jsError "Failed to find element \"div.questionPane\" after 3 attempts") := by
  decide

/-- C4 (amended): the retry helper makes up to 3 attempts with strictly
increasing per-attempt timeouts (attempt × base timeout) and one fixed
1-second pause between consecutive attempts; if the element becomes
available on attempt k (k ≤ 3) it returns `found k` after exactly k
attempts with no earlier attempt's error surfacing, and if the element is
absent through all 3 attempts it rethrows the third attempt's timeout
error (naming the selector), the helper's own descriptive "element not
found" message being unreachable on that path. -/
theorem C4_retry_schedule (sel : String) (avail : Nat → Bool) (k : Nat) :
    (1 ≤ k → k ≤ maxAttempts →
      (∀ j, 1 ≤ j → j < k → avail j = false) → avail k = true →
      waitForElementWithRetry sel avail =
        ⟨(List.range k).map (fun i => attemptTimeout (i + 1)), k - 1, .found k⟩
      ∧ ((List.range k).map (fun i => attemptTimeout (i + 1))).Pairwise (· < ·))
    ∧ ((∀ j, 1 ≤ j → j ≤ maxAttempts → avail j = false) →
      waitForElementWithRetry sel avail =
        ⟨[attemptTimeout 1, attemptTimeout 2, attemptTimeout 3], 2,
         .errored (.timeoutErr sel (attemptTimeout maxAttempts))⟩) := by
  constructor
  · intro hk1 hk3 hbefore hk
    have hk3' : k ≤ 3 := hk3
    interval_cases k
    · rw [waitRetry_found_1 sel avail hk]
      exact ⟨by decide, by decide⟩
    · rw [waitRetry_found_2 sel avail (hbefore 1 (by omega) (by omega)) hk]
      exact ⟨by decide, by decide⟩
    · rw [waitRetry_found_3 sel avail (hbefore 1 (by omega) (by omega))
        (hbefore 2 (by omega) (by omega)) hk]
      exact ⟨by decide, by decide⟩
  · intro habs
    rw [waitRetry_exhausted sel avail (habs 1 (by decide) (by decide))
      (habs 2 (by decide) (by decide)) (habs 3 (by decide) (by decide))]
    rfl

/-- Witness for C4: an element that appears on attempt 2 is found after
exactly two attempts (timeouts 50000 then 100000, one pause), and an
element that never appears makes the helper raise the third attempt's
timeout error. -/
theorem C4_witness :
    waitForElementWithRetry "div.answerPane" (fun a => a == 2) =
      ⟨[50000, 100000], 1, .found 2⟩
    ∧ waitForElementWithRetry "div.answerPane" (fun _ => false) =
      ⟨[50000, 100000, 150000], 2, .errored (.timeoutErr "div.answerPane" 150000)⟩ := by
  constructor
  · have h := (C4_retry_schedule "div.answerPane" (fun a => a == 2) 2).1
      (by decide) (by decide)
      (by intro j h1 h2; have hj : j = 1 := (by omega); subst hj; rfl) rfl
    exact h.1
  · have h := (C4_retry_schedule "div.answerPane" (fun _ => false) 3).2
      (by intro j h1 h2; rfl)
    exact h

/-- C2 counterexample: on a reply whose trimmed text fails integer
parsing, `getOllamaAnswer` returns `NaN`, which is a different value from
`null` — `null` arises only when the request itself throws.  The claim
that the contract "returns null" on parse failure is therefore false. -/
theorem C2_cex_parse_failure_returns_nan_not_null :
    getOllamaAnswer (.ok "I think it is Paris") = .nan
    ∧ getOllamaAnswer (.ok "") = .nan
    ∧ getChatGPTAnswer (.ok "I think it is Paris") = .nan
    ∧ AnswerValue.nan ≠ AnswerValue.jnull
    ∧ getOllamaAnswer .err = .jnull := by
  decide

/-- C2 (amended): for every model reply whose trimmed text fails integer
parsing, `getOllamaAnswer` / `getChatGPTAnswer` return `NaN` (`null` only
when the request itself throws); `NaN`, like `null`, is falsy, so both
loop variants skip the UI-action phase for that question — no option
click, no submit — and the iteration continues rather than crashing. -/
theorem C2_parse_failure_skips_ui_phase
    (dom : Dom000) (domI : DomIdx) (m : AiModel) (s : String)
    (hparse : parseIntJS (trimJS s) = .nan)
    (hq : dom.questionPaneOk = true) (ht : dom.questionTextOk = true)
    (ha : dom.answerPaneOk = true) (hne : dom.options ≠ [])
    (hqI : domI.questionOk = true) :
    getOllamaAnswer (.ok s) = .nan
    ∧ getChatGPTAnswer (.ok s) = .nan
    ∧ iter000 dom m (.ok s) =
        ([.screenshot "debug-question.png",
          .invokeInference dom.questionStr dom.options], .continueNext)
    ∧ iterIdx domI (.ok s) =
        ([.invokeInference domI.questionStr domI.options], .continueNext) := by
  have hisEmpty : dom.options.isEmpty = false := by
    cases hL : dom.options with
    | nil => exact absurd hL hne
    | cons a l => rfl
  have hans : getAIAnswer m (.ok s) = .nan := by
    cases m <;> simp [getAIAnswer, getOllamaAnswer, getChatGPTAnswer, hparse]
  refine ⟨by simp [getOllamaAnswer, hparse], by simp [getChatGPTAnswer, hparse], ?_, ?_⟩
  · simp [iter000, tryBody000, hq, ht, ha, waitConst_true, hisEmpty, hans]
  · simp [iterIdx, tryBodyIdx, hqI, getOllamaAnswer, hparse]

/-- Witness for C2 (amended): the spec's prose reply at the example page
is parsed to `NaN` and the iteration performs no click and no submit. -/
theorem C2_witness :
    getOllamaAnswer (.ok "I think the answer is Paris") = .nan
    ∧ getChatGPTAnswer (.ok "I think the answer is Paris") = .nan
    ∧ iter000 capitalDom .ollama (.ok "I think the answer is Paris") =
        ([.screenshot "debug-question.png", .invokeInference capitalQ capitalOptions],
         .continueNext)
    ∧ iterIdx capitalDomIdx (.ok "I think the answer is Paris") =
        ([.invokeInference capitalQ capitalOptions], .continueNext) :=
  C2_parse_failure_skips_ui_phase capitalDom capitalDomIdx .ollama
    "I think the answer is Paris" (by decide) rfl rfl rfl (by decide) rfl

/-- C6 counterexample: the non-null integer answer 0 — outside [1, 4] —
does not reach any error condition: `if (answerIndex)` is false for 0, so
the iteration skips the UI phase and continues, silently dropping the
value without ever resolving a selector. -/
theorem C6_cex_zero_is_silently_dropped :
    iter000 capitalDom .ollama (.ok "0") =
      ([.screenshot "debug-question.png", .invokeInference capitalQ capitalOptions],
       .continueNext) := by
  decide

/-- C6 (amended): a non-null integer answer k outside [1, N] with k ≠ 0
reaches the defined error condition — the ordinal selector resolves to
nothing, the wait/click fails, an error screenshot is taken and the
iteration leaves the normal path — and no option (neither ordinal k nor
any clamped ordinal) is ever clicked; but k = 0 is falsy under the
`if (answerIndex)` test and is silently skipped exactly like a null
answer, with no selector attempted. -/
theorem C6_out_of_range_errors_except_zero
    (dom : Dom000) (m : AiModel) (f : FetchOutcome) (k : Int) (e : JsError)
    (hq : dom.questionPaneOk = true) (ht : dom.questionTextOk = true)
    (ha : dom.answerPaneOk = true) (hne : dom.options ≠ []) :
    (getAIAnswer m f = .num k → k ≠ 0 →
      (k < 1 ∨ (dom.options.length : Int) < k) →
      dom.optionRes k = some e →
      (tryBody000 dom m f).2 = some e
      ∧ UiAction.screenshot "error-screenshot.png" ∈ (iter000 dom m f).1
      ∧ (iter000 dom m f).2 ≠ .continueNext
      ∧ ∀ j : Int, UiAction.clickOption j ∉ (iter000 dom m f).1)
    ∧ (getAIAnswer m f = .num 0 →
      iter000 dom m f =
        ([.screenshot "debug-question.png",
          .invokeInference dom.questionStr dom.options], .continueNext)) := by
  have hisEmpty : dom.options.isEmpty = false := by
    cases hL : dom.options with
    | nil => exact absurd hL hne
    | cons a l => rfl
  constructor
  · intro hans hk0 hrange hopt
    have htb : tryBody000 dom m f =
        ([.screenshot "debug-question.png",
          .invokeInference dom.questionStr dom.options,
          .screenshot "error-screenshot.png"], some e) := by
      simp only [tryBody000, hq, ht, ha, waitConst_true, hisEmpty, hans, hopt, jsTruthy]
      simp [hk0]
    cases hbr : includesTimeout e with
    | true =>
      refine ⟨by rw [htb], ?_, ?_, ?_⟩ <;> simp [iter000, htb, hbr]
    | false =>
      refine ⟨by rw [htb], ?_, ?_, ?_⟩ <;> simp [iter000, htb, hbr]
  · intro hans
    simp [iter000, tryBody000, hq, ht, ha, waitConst_true, hisEmpty, hans, jsTruthy]

/-- Witness for C6 (amended): at the example page (4 options), the
answer 9 makes the option wait throw, an error screenshot is taken, the
iteration leaves the normal path and no option is clicked; the answer 0
is skipped with no click at all. -/
theorem C6_witness :
    ((tryBody000 capitalDom .ollama (.ok "9")).2
      = some (.timeoutErr (optionSel000 9) (attemptTimeout maxAttempts))
    ∧ UiAction.screenshot "error-screenshot.png" ∈ (iter000 capitalDom .ollama (.ok "9")).1
    ∧ (iter000 capitalDom .ollama (.ok "9")).2 ≠ .continueNext
    ∧ ∀ j : Int, UiAction.clickOption j ∉ (iter000 capitalDom .ollama (.ok "9")).1)
    ∧ iter000 capitalDom .ollama (.ok "0") =
      ([.screenshot "debug-question.png", .invokeInference capitalQ capitalOptions],
       .continueNext) := by
  have h := C6_out_of_range_errors_except_zero capitalDom .ollama (.ok "9") 9
    (.timeoutErr (optionSel000 9) (attemptTimeout maxAttempts))
    rfl rfl rfl (by decide)
  exact ⟨h.1 (by decide) (by decide) (by decide) (by decide), by decide⟩

/-- C7: the login sequencer performs exactly four UI steps in order —
click Enter, fill email, fill pin, click Enter — followed by a fixed
2-second settle delay; if all four expected elements appear within their
bounded waits it returns without error, and if any one step's element
never appears, it raises that step's timeout error unmodified and no
subsequent step executes. -/
theorem C7_login_sequencing (env : LoginEnv) (email pin : String) :
    (env.enterBtn1 = true → env.emailInput = true → env.pinInput = true →
      env.enterBtn2 = true →
      handleQuizLogin env email pin =
        ([.clickEnter, .fillEmail email, .fillPin pin, .clickEnter, .settle 2000], none))
    ∧ (env.enterBtn1 = false →
      handleQuizLogin env email pin = ([], some (.timeoutErr loginEnterSel 5000)))
    ∧ (env.enterBtn1 = true → env.emailInput = false →
      handleQuizLogin env email pin = ([.clickEnter], some (.timeoutErr emailSel 5000)))
    ∧ (env.enterBtn1 = true → env.emailInput = true → env.pinInput = false →
      handleQuizLogin env email pin =
        ([.clickEnter, .fillEmail email], some (.timeoutErr pinSel 5000)))
    ∧ (env.enterBtn1 = true → env.emailInput = true → env.pinInput = true →
      env.enterBtn2 = false →
      handleQuizLogin env email pin =
        ([.clickEnter, .fillEmail email, .fillPin pin],
         some (.timeoutErr loginEnterSel 5000))) := by
  refine ⟨?_, ?_, ?_, ?_, ?_⟩
  · intro h1 h2 h3 h4; simp [handleQuizLogin, h1, h2, h3, h4]
  · intro h1; simp [handleQuizLogin, h1]
  · intro h1 h2; simp [handleQuizLogin, h1, h2]
  · intro h1 h2 h3; simp [handleQuizLogin, h1, h2, h3]
  · intro h1 h2 h3 h4; simp [handleQuizLogin, h1, h2, h3, h4]

/-- Witness for C7: with all four elements appearing, login performs the
four steps in order and the settle delay, returning no error; with the
email input never appearing, it raises that step's timeout after only the
first click. -/
theorem C7_witness :
    handleQuizLogin ⟨true, true, true, true⟩ "user@example.com" "1234" =
      ([.clickEnter, .fillEmail "user@example.com", .fillPin "1234", .clickEnter,
        .settle 2000], none)
    ∧ handleQuizLogin ⟨true, false, true, true⟩ "user@example.com" "1234" =
      ([.clickEnter], some (.timeoutErr emailSel 5000)) :=
  ⟨(C7_login_sequencing ⟨true, true, true, true⟩ "user@example.com" "1234").1
      rfl rfl rfl rfl,
   (C7_login_sequencing ⟨true, false, true, true⟩ "user@example.com" "1234").2.2.1
      rfl rfl⟩

/-- C3 counterexample: on the normal loop-exit path (the loop `break`s
and `runQuizBot` returns) the browser is not closed and no `process.exit`
is made — the claim that the browser is closed with exit code 0 on every
clean exit path is false at this path. -/
theorem C3_cex_normal_exit_leaks_browser :
    (runExitBehavior .normalLoopExit).browserClosed = false
    ∧ (runExitBehavior .normalLoopExit).exitCode ≠ some 0
    ∧ (runExitBehavior .normalLoopExit).exitCode = none := by
  decide

/-- C3 (amended): on the page-close path the browser is closed and the
process exits 0 (1 if closing fails), and on the uncaught-error path the
browser is closed and the process exits 1; but on the normal loop-exit
path `runQuizBot` simply returns — the browser is left open and no exit
code is set (cleanup happens only if the user then closes the window). -/
theorem C3_exit_paths :
    runExitBehavior .pageCloseOk = ⟨true, some 0⟩
    ∧ runExitBehavior .pageCloseFail = ⟨false, some 1⟩
    ∧ runExitBehavior .fatalError = ⟨true, some 1⟩
    ∧ runExitBehavior .normalLoopExit = ⟨false, none⟩ := by
  decide

/-- The `part_000` loop catch: an error escaping the body appends the
timeout-recovery actions (screenshot, reload) and continues, or the
quiz-error screenshot and breaks, according to the "timeout" message test. -/
theorem iter000_of_err (dom : Dom000) (m : AiModel) (f : FetchOutcome)
    (acts : List UiAction) (e : JsError)
    (htb : tryBody000 dom m f = (acts, some e)) :
    iter000 dom m f =
      (acts ++ (if includesTimeout e then [.screenshot "timeout-error.png", .reloadPage]
                else [.screenshot "quiz-error.png"]),
       if includesTimeout e then .reloadRetry else .exitError) := by
  cases hbr : includesTimeout e <;> simp [iter000, htb, hbr]

/-- The `index.js` loop catch: an error escaping the body breaks either
way; the "timeout" message test only decides whether the break is read as
quiz completion. -/
theorem iterIdx_of_err (domI : DomIdx) (f : FetchOutcome)
    (acts : List UiAction) (e : JsError)
    (htb : tryBodyIdx domI f = (acts, some e)) :
    iterIdx domI f = (acts, if includesTimeout e then .exitComplete else .exitError) := by
  cases hbr : includesTimeout e <;> simp [iterIdx, htb, hbr]

/-- The `index.js` catch adds no actions: an iteration's actions are its
body's actions. -/
theorem iterIdx_fst_eq (domI : DomIdx) (f : FetchOutcome) :
    (iterIdx domI f).1 = (tryBodyIdx domI f).1 := by
  cases htb : tryBodyIdx domI f with
  | mk acts err =>
    cases err with
    | none => simp [iterIdx, htb]
    | some e => cases hbr : includesTimeout e <;> simp [iterIdx, htb, hbr]

/-- C5 counterexample: in the `part_000` variant a Submitting-phase
failure whose message contains "timeout" (an out-of-range ordinal whose
selector never resolves) is caught by the loop's catch, the page is
reloaded and the loop continues — the failed submission is retried, not
fatal, contradicting the claim that every such failure terminates the
run. -/
theorem C5_cex_timeout_submit_failure_retried :
    UiAction.screenshot "error-screenshot.png" ∈ (iter000 capitalDom .ollama (.ok "9")).1
    ∧ UiAction.reloadPage ∈ (iter000 capitalDom .ollama (.ok "9")).1
    ∧ (iter000 capitalDom .ollama (.ok "9")).2 = .reloadRetry
    ∧ (iter000 capitalDom .ollama (.ok "9")).2 ≠ .exitError := by
  decide

/-- C5 (amended): every failure during option/submit element resolution
or click in the Submitting phase is logged, captures the
`error-screenshot.png` diagnostic screenshot, and propagates out of the
inner try to the loop's catch.  In the `index.js` variant the loop then
terminates.  In the `part_000` variant only failures whose message lacks
"timeout" terminate the loop; a failure whose message contains "timeout"
triggers the reload-and-retry recovery path instead of being fatal. -/
theorem C5_submit_failure_screenshot_then_policy
    (dom : Dom000) (domI : DomIdx) (m : AiModel) (f : FetchOutcome)
    (k kI : Int) (e eI : JsError)
    (hq : dom.questionPaneOk = true) (ht : dom.questionTextOk = true)
    (ha : dom.answerPaneOk = true) (hne : dom.options ≠ [])
    (hans : getAIAnswer m f = .num k) (hk0 : k ≠ 0)
    (hfail : dom.optionRes k = some e ∨ (dom.optionRes k = none ∧ dom.submitRes = some e))
    (hqI : domI.questionOk = true)
    (hansI : getOllamaAnswer f = .num kI) (hkI0 : kI ≠ 0)
    (hfailI : domI.optionRes kI = some eI
      ∨ (domI.optionRes kI = none ∧ domI.submitRes = some eI)) :
    (tryBody000 dom m f).2 = some e
    ∧ UiAction.screenshot "error-screenshot.png" ∈ (iter000 dom m f).1
    ∧ (includesTimeout e = true →
        (iter000 dom m f).2 = .reloadRetry
        ∧ UiAction.reloadPage ∈ (iter000 dom m f).1)
    ∧ (includesTimeout e = false → (iter000 dom m f).2 = .exitError)
    ∧ (tryBodyIdx domI f).2 = some eI
    ∧ UiAction.screenshot "error-screenshot.png" ∈ (iterIdx domI f).1
    ∧ ((iterIdx domI f).2 = .exitComplete ∨ (iterIdx domI f).2 = .exitError) := by
  have hisEmpty : dom.options.isEmpty = false := by
    cases hL : dom.options with
    | nil => exact absurd hL hne
    | cons a l => rfl
  have htb : ∃ acts, tryBody000 dom m f =
      (acts, some e) ∧ UiAction.screenshot "error-screenshot.png" ∈ acts := by
    rcases hfail with hopt | ⟨hopt, hsub⟩
    · refine ⟨[.screenshot "debug-question.png",
        .invokeInference dom.questionStr dom.options,
        .screenshot "error-screenshot.png"], ?_, by simp⟩
      simp only [tryBody000, hq, ht, ha, waitConst_true, hisEmpty, hans, hopt, jsTruthy]
      simp [hk0]
    · refine ⟨[.screenshot "debug-question.png",
        .invokeInference dom.questionStr dom.options,
        .clickOption k, .screenshot "error-screenshot.png"], ?_, by simp⟩
      simp only [tryBody000, hq, ht, ha, waitConst_true, hisEmpty, hans, hopt, hsub, jsTruthy]
      simp [hk0]
  have htbI : ∃ acts, tryBodyIdx domI f =
      (acts, some eI) ∧ UiAction.screenshot "error-screenshot.png" ∈ acts := by
    rcases hfailI with hopt | ⟨hopt, hsub⟩
    · refine ⟨[.invokeInference domI.questionStr domI.options,
        .screenshot "error-screenshot.png"], ?_, by simp⟩
      simp only [tryBodyIdx, hqI, hansI, hopt, jsTruthy]
      simp [hkI0]
    · refine ⟨[.invokeInference domI.questionStr domI.options,
        .clickOption kI, .screenshot "error-screenshot.png"], ?_, by simp⟩
      simp only [tryBodyIdx, hqI, hansI, hopt, hsub, jsTruthy]
      simp [hkI0]
  obtain ⟨acts, htb, hmem⟩ := htb
  obtain ⟨actsI, htbI, hmemI⟩ := htbI
  refine ⟨by rw [htb], ?_, ?_, ?_, by rw [htbI], ?_, ?_⟩
  · rw [iter000_of_err dom m f acts e htb]
    simp [hmem]
  · intro hbr
    rw [iter000_of_err dom m f acts e htb]
    simp [hbr]
  · intro hbr
    rw [iter000_of_err dom m f acts e htb]
    simp [hbr]
  · rw [iterIdx_fst_eq, htbI]
    exact hmemI
  · rw [iterIdx_of_err domI f actsI eI htbI]
    cases hbr : includesTimeout eI <;> simp
/-- Witness for C5 (amended): at the example page, the un-resolvable
ordinal 9 makes both variants take the error screenshot; `part_000` then
reloads and retries while `index.js` exits the loop. -/
theorem C5_witness :
    UiAction.screenshot "error-screenshot.png" ∈ (iter000 capitalDom .ollama (.ok "9")).1
    ∧ (iter000 capitalDom .ollama (.ok "9")).2 = .reloadRetry
    ∧ UiAction.screenshot "error-screenshot.png" ∈ (iterIdx capitalDomIdx (.ok "9")).1
    ∧ ((iterIdx capitalDomIdx (.ok "9")).2 = .exitComplete
       ∨ (iterIdx capitalDomIdx (.ok "9")).2 = .exitError) := by
  have h := C5_submit_failure_screenshot_then_policy capitalDom capitalDomIdx .ollama
    (.ok "9") 9 9
    (.timeoutErr (optionSel000 9) (attemptTimeout maxAttempts))
    (.timeoutErr (optionSelIdx 9) 5000)
    rfl rfl rfl (by decide) (by decide) (by decide) (Or.inl (by decide))
    rfl (by decide) (by decide) (Or.inl (by decide))
  exact ⟨h.2.1, (h.2.2.1 rfl).1, h.2.2.2.2.2.1, h.2.2.2.2.2.2⟩

/-- C8 counterexample: in the `index.js` variant a zero-option scrape is
not rejected — the loop invokes the inference client with the empty
option list, contradicting the claim that it never does so. -/
theorem C8_cex_idx_inference_invoked_with_empty_options :
    UiAction.invokeInference "Q" [] ∈ (iterIdx emptyDomIdx (.ok "2")).1 := by
  decide

/-- Every `index.js` iteration whose question wait resolves starts its
actions with the inference call on the scraped question and options. -/
theorem tryBodyIdx_starts_with_inference (domI : DomIdx) (f : FetchOutcome)
    (hqI : domI.questionOk = true) :
    ∃ rest, (tryBodyIdx domI f).1 =
      UiAction.invokeInference domI.questionStr domI.options :: rest := by
  cases hA : getOllamaAnswer f with
  | jnull => exact ⟨[], by simp [tryBodyIdx, hqI, hA]⟩
  | nan => exact ⟨[], by simp [tryBodyIdx, hqI, hA]⟩
  | num k =>
    by_cases hk : k = 0
    · subst hk
      exact ⟨[], by simp [tryBodyIdx, hqI, hA, jsTruthy]⟩
    · cases ho : domI.optionRes k with
      | some e =>
        exact ⟨[.screenshot "error-screenshot.png"],
          by simp [tryBodyIdx, hqI, hA, jsTruthy, hk, ho]⟩
      | none =>
        cases hs : domI.submitRes with
        | some e =>
          exact ⟨[.clickOption k, .screenshot "error-screenshot.png"],
            by simp [tryBodyIdx, hqI, hA, jsTruthy, hk, ho, hs]⟩
        | none =>
          exact ⟨[.clickOption k, .clickSubmit],
            by simp [tryBodyIdx, hqI, hA, jsTruthy, hk, ho, hs]⟩

/-- C8 (amended): in the `part_000` variant a zero-option scrape raises
the explicit "No answer options found" error before the inference call —
the inference client is never invoked and the loop exits on the error
path; the `index.js` variant has no such check and invokes the inference
client with the empty option list. -/
theorem C8_zero_options_policy
    (dom : Dom000) (domI : DomIdx) (m : AiModel) (f : FetchOutcome)
    (hq : dom.questionPaneOk = true) (ht : dom.questionTextOk = true)
    (ha : dom.answerPaneOk = true) (hopts : dom.options = [])
    (hqI : domI.questionOk = true) (hoptsI : domI.options = []) :
    tryBody000 dom m f =
      ([.screenshot "debug-question.png"], some (.jsError "No answer options found"))
    ∧ (∀ q opts, UiAction.invokeInference q opts ∉ (iter000 dom m f).1)
    ∧ (iter000 dom m f).2 = .exitError
    ∧ UiAction.invokeInference domI.questionStr [] ∈ (iterIdx domI f).1 := by
  have htb : tryBody000 dom m f =
      ([.screenshot "debug-question.png"], some (.jsError "No answer options found")) := by
    simp [tryBody000, hq, ht, ha, waitConst_true, hopts]
  have hbr : includesTimeout (.jsError "No answer options found") = false := by decide
  have hiter := iter000_of_err dom m f _ _ htb
  rw [hbr] at hiter
  simp only [if_false, Bool.false_eq_true] at hiter
  refine ⟨htb, ?_, by rw [hiter], ?_⟩
  · intro q opts
    rw [hiter]
    simp
  · obtain ⟨rest, hr⟩ := tryBodyIdx_starts_with_inference domI f hqI
    rw [iterIdx_fst_eq, hr, hoptsI]
    simp

/-- Witness for C8 (amended): a page scraping zero options makes
`part_000` raise "No answer options found" without invoking inference,
and makes `index.js` invoke inference with the empty list. -/
theorem C8_witness :
    tryBody000 emptyDom000 .ollama (.ok "2") =
      ([.screenshot "debug-question.png"], some (.jsError "No answer options found"))
    ∧ (iter000 emptyDom000 .ollama (.ok "2")).2 = .exitError
    ∧ UiAction.invokeInference "Q" [] ∈ (iterIdx emptyDomIdx (.ok "2")).1 := by
  have h := C8_zero_options_policy emptyDom000 emptyDomIdx .ollama (.ok "2")
    rfl rfl rfl rfl rfl rfl
  exact ⟨h.1, h.2.2.1, h.2.2.2⟩

/-- The example page with the question container never appearing. -/
def noQuestionDom : Dom000 :=
  { capitalDom with questionPaneOk := false }

/-- The `index.js` example page with `.question` never appearing. -/
def noQuestionDomIdx : DomIdx :=
  { capitalDomIdx with questionOk := false }

/-- C9: on a question-wait timeout the two variants diverge exactly as
stated — and more generally for any error with "timeout" in its message
caught by the loop: the `index.js` variant treats it as quiz completion
and exits the loop, while the `part_000` variant treats it as
recoverable, takes a screenshot, reloads the page and continues (retrying
the same waiting state on the next iteration). -/
theorem C9_timeout_policy_divergence
    (dom : Dom000) (domI : DomIdx) (m : AiModel) (f : FetchOutcome) (e : JsError) :
    (dom.questionPaneOk = false →
      iter000 dom m f = ([.screenshot "timeout-error.png", .reloadPage], .reloadRetry))
    ∧ (domI.questionOk = false → iterIdx domI f = ([], .exitComplete))
    ∧ (∀ acts, tryBody000 dom m f = (acts, some e) → includesTimeout e = true →
        iter000 dom m f =
          (acts ++ [.screenshot "timeout-error.png", .reloadPage], .reloadRetry))
    ∧ (∀ acts, tryBodyIdx domI f = (acts, some e) → includesTimeout e = true →
        iterIdx domI f = (acts, .exitComplete)) := by
  refine ⟨?_, ?_, ?_, ?_⟩
  · intro hq0
    have htb : tryBody000 dom m f =
        ([], some (.timeoutErr qPaneSel (attemptTimeout maxAttempts))) := by
      simp [tryBody000, hq0, waitConst_false]
    rw [iter000_of_err dom m f _ _ htb]
    rfl
  · intro hq0
    have htb : tryBodyIdx domI f = ([], some (.timeoutErr questionSelIdx 5000)) := by
      simp [tryBodyIdx, hq0]
    rw [iterIdx_of_err domI f _ _ htb]
    rfl
  · intro acts htb hbr
    rw [iter000_of_err dom m f acts e htb, hbr]
    rfl
  · intro acts htb hbr
    rw [iterIdx_of_err domI f acts e htb, hbr]
    rfl

/-- Witness for C9: with the question container never appearing,
`part_000` reloads and continues while `index.js` exits the loop as
quiz-complete. -/
theorem C9_witness :
    iter000 noQuestionDom .ollama .err =
      ([.screenshot "timeout-error.png", .reloadPage], .reloadRetry)
    ∧ iterIdx noQuestionDomIdx .err = ([], .exitComplete) :=
  ⟨(C9_timeout_policy_divergence noQuestionDom noQuestionDomIdx .ollama .err
      (.jsError "unused")).1 rfl,
   (C9_timeout_policy_divergence noQuestionDom noQuestionDomIdx .ollama .err
      (.jsError "unused")).2.1 rfl⟩

/-- A whitespace character is not a decimal digit. -/
theorem ws_not_digit (c : Char) (h : c.isWhitespace = true) : c.isDigit = false := by
  simp [Char.isWhitespace] at h
  rcases h with ((h | h) | h) | h <;> subst h <;> decide

/-- A decimal digit is not whitespace. -/
theorem digit_not_ws (c : Char) (h : c.isDigit = true) : c.isWhitespace = false := by
  cases hw : c.isWhitespace
  · rfl
  · rw [ws_not_digit c hw] at h
    cases h

/-- A decimal digit is none of the parser's special marker characters. -/
theorem digit_ne_markers (c : Char) (h : c.isDigit = true) :
    c ≠ '-' ∧ c ≠ '+' ∧ c ≠ 'x' ∧ c ≠ 'X' := by
  refine ⟨?_, ?_, ?_, ?_⟩ <;> intro he <;> subst he <;> exact absurd h (by decide)

/-- `takeWhile` takes exactly a run that satisfies the predicate when the
remainder's head does not. -/
theorem takeWhile_run_append (p : Char → Bool) (d t : List Char)
    (hd : ∀ c ∈ d, p c = true) (ht : ∀ c, t.head? = some c → p c = false) :
    (d ++ t).takeWhile p = d := by
  induction d with
  | nil =>
    cases t with
    | nil => rfl
    | cons c t' => simp [List.takeWhile_cons, ht c rfl]
  | cons c d' ih =>
    have hc : p c = true := hd c (by simp)
    simp only [List.cons_append, List.takeWhile_cons, hc, if_true]
    rw [ih (fun x hx => hd x (by simp [hx]))]

/-- Dropping whitespace from a digit-headed list is the identity. -/
theorem dropWhile_ws_digit_head (c : Char) (l : List Char) (h : c.isDigit = true) :
    (c :: l).dropWhile Char.isWhitespace = c :: l := by
  simp [List.dropWhile_cons, digit_not_ws c h]

/-- `parseInt` on text that starts with a run of decimal digits followed
by non-numeric text returns the value of that digit run (excluding the
`0x`-hex reading, which applies only to a lone leading `0` followed by
`x`/`X`). -/
theorem parseIntList_digit_run (d t : List Char) (hd : d ≠ [])
    (hdig : ∀ c ∈ d, c.isDigit = true)
    (ht : ∀ c, t.head? = some c → c.isDigit = false)
    (hhex : ¬(d = ['0'] ∧ (t.head? = some 'x' ∨ t.head? = some 'X'))) :
    parseIntList (d ++ t) = .num (natOfDigits d) := by
  obtain ⟨c0, d', rfl⟩ : ∃ c0 d', d = c0 :: d' := by
    cases d with
    | nil => exact absurd rfl hd
    | cons a l => exact ⟨a, l, rfl⟩
  have hc0 : c0.isDigit = true := hdig c0 (by simp)
  have hdw : ((c0 :: d') ++ t).dropWhile Char.isWhitespace = c0 :: (d' ++ t) := by
    simpa using dropWhile_ws_digit_head c0 (d' ++ t) hc0
  have hm := digit_ne_markers c0 hc0
  have htw : ((c0 :: d') ++ t).takeWhile Char.isDigit = c0 :: d' :=
    takeWhile_run_append Char.isDigit (c0 :: d') t hdig ht
  have hhp : hexPref (c0 :: (d' ++ t)) = false := by
    cases d' with
    | nil =>
      cases t with
      | nil => rfl
      | cons c1 rest =>
        simp only [hexPref, List.nil_append]
        cases h0 : c0 == '0' with
        | false => rfl
        | true =>
          have hc0' : c0 = '0' := by simpa using h0
          have h1 : c1 ≠ 'x' ∧ c1 ≠ 'X' := by
            constructor <;> intro he <;> subst he <;>
              exact hhex ⟨by rw [hc0'], by simp⟩
          simp [h1.1, h1.2]
    | cons a d'' =>
      have ha := digit_ne_markers a (hdig a (by simp))
      simp only [hexPref, List.cons_append]
      simp [ha.2.2.1, ha.2.2.2]
  rw [parseIntList, hdw]
  simp only [signSplit]
  rw [if_neg hm.1, if_neg hm.2.1]
  rw [parseIntFrom]
  simp only [hhp, Bool.false_eq_true, if_false]
  have htw' : (c0 :: (d' ++ t)).takeWhile Char.isDigit = c0 :: d' := by
    simpa using htw
  rw [htw']
  simp

/-- C10 counterexample: the reply "0. None of the above" begins with the
decimal digit prefix "0", and the client does return its integer value 0 —
but the falsy 0 is then treated as "no usable answer": the loop skips the
UI phase entirely, so such a reply is not "treated as a usable answer and
submitted" as the claim states for every digit-prefixed reply. -/
theorem C10_cex_zero_digit_reply_not_submitted :
    getOllamaAnswer (.ok "0. None of the above") = .num 0
    ∧ iter000 capitalDom .ollama (.ok "0. None of the above") =
        ([.screenshot "debug-question.png", .invokeInference capitalQ capitalOptions],
         .continueNext) := by
  decide

/-- C10 (amended): for every model reply whose trimmed text begins with a
run of decimal digits followed by non-numeric trailing text (excluding
the `0x` hex reading after a lone leading `0`), the inference client
returns the integer value of that leading digit run; when the value is
nonzero the reply is treated as a usable answer — the loop proceeds to
the UI-action phase and, for a valid ordinal, clicks and submits — while
a leading digit run of value 0 is falsy and is skipped exactly like a
parse failure. -/
theorem C10_leading_digits_parsed
    (s : String) (d t : List Char) (dom : Dom000) (m : AiModel)
    (hsplit : (trimJS s).data = d ++ t)
    (hd : d ≠ []) (hdig : ∀ c ∈ d, c.isDigit = true)
    (ht : ∀ c, t.head? = some c → c.isDigit = false)
    (hhex : ¬(d = ['0'] ∧ (t.head? = some 'x' ∨ t.head? = some 'X')))
    (hq : dom.questionPaneOk = true) (htx : dom.questionTextOk = true)
    (ha : dom.answerPaneOk = true) (hne : dom.options ≠ [])
    (hopt : dom.optionRes (natOfDigits d : Int) = none) (hsub : dom.submitRes = none) :
    getOllamaAnswer (.ok s) = .num (natOfDigits d)
    ∧ getChatGPTAnswer (.ok s) = .num (natOfDigits d)
    ∧ (natOfDigits d ≠ 0 →
        iter000 dom m (.ok s) =
          ([.screenshot "debug-question.png",
            .invokeInference dom.questionStr dom.options,
            .clickOption (natOfDigits d : Int), .clickSubmit,
            .screenshot "success-submission.png"], .continueNext))
    ∧ (natOfDigits d = 0 →
        iter000 dom m (.ok s) =
          ([.screenshot "debug-question.png",
            .invokeInference dom.questionStr dom.options], .continueNext)) := by
  have hparse : parseIntJS (trimJS s) = .num (natOfDigits d) := by
    rw [parseIntJS, hsplit]
    exact parseIntList_digit_run d t hd hdig ht hhex
  have hisEmpty : dom.options.isEmpty = false := by
    cases hL : dom.options with
    | nil => exact absurd hL hne
    | cons a l => rfl
  have hans : getAIAnswer m (.ok s) = .num (natOfDigits d) := by
    cases m <;> simp [getAIAnswer, getOllamaAnswer, getChatGPTAnswer, hparse]
  refine ⟨by simp [getOllamaAnswer, hparse], by simp [getChatGPTAnswer, hparse], ?_, ?_⟩
  · intro hk0
    have hk0' : (natOfDigits d : Int) ≠ 0 := by
      simpa using hk0
    simp only [iter000, tryBody000, hq, htx, ha, waitConst_true, hisEmpty, hans,
      hopt, hsub, jsTruthy]
    simp [hk0']
  · intro hk0
    simp only [iter000, tryBody000, hq, htx, ha, waitConst_true, hisEmpty, hans, jsTruthy,
      hk0]
    simp

/-- Witness for C10 (amended): the reply "2. Paris is correct" is parsed
to 2 and, at the example page, the loop clicks option 2 and submits. -/
theorem C10_witness :
    getOllamaAnswer (.ok "2. Paris is correct") = .num 2
    ∧ iter000 capitalDom .ollama (.ok "2. Paris is correct") =
        ([.screenshot "debug-question.png", .invokeInference capitalQ capitalOptions,
          .clickOption 2, .clickSubmit, .screenshot "success-submission.png"],
         .continueNext) := by
  have h := C10_leading_digits_parsed "2. Paris is correct"
    ['2'] ". Paris is correct".data capitalDom .ollama
    (by decide) (by decide) (by decide)
    (by intro c hc; simp at hc; subst hc; decide)
    (by decide)
    rfl rfl rfl (by decide) (by decide) rfl
  exact ⟨h.1, by simpa using h.2.2.1 (by decide)⟩
